import Mathlib

/-!
Shallow embedding of the core of the pydantic-core validation engine:
the JSON document-tree input representation and the bare-string input
representation with their strict/lax coercions (src/input/input_json.rs),
and the validation-error aggregate with its conversions and rendering
(src/errors/validation_exception.rs).

Modelling conventions: machine floats (`f64`) are modelled as rational
numbers (every finite float is a rational; non-finite values are outside
the model); byte strings are modelled as code-point sequences; Python
objects are modelled by their repr string, display string and type name.
Helper modules of the repository that are not part of this snapshot
(src/input/shared.rs, src/input/datetime.rs, src/errors/kinds.rs,
src/errors/location.rs) are modelled from the specification; each such
definition is marked `Modelled from the spec:` in its doc comment.
-/

namespace PydanticCore

/-- A segment of an error location: a mapping key or a sequence index. -/
inductive LocItem where
  | s (key : String)
  | i (index : Nat)
deriving DecidableEq, Repr

/-- Modelled from the spec: the error-kind taxonomy (src/errors/kinds.rs is not
part of this snapshot); the constructors are the kinds referenced by
src/input/input_json.rs plus the parsing and range kinds of the temporal and
numeric coercions described in the spec. -/
inductive ErrorKind where
  | strType
  | bytesType
  | boolType
  | boolParsing
  | intType
  | intParsing
  | floatNotInt
  | floatType
  | floatParsing
  | dictType
  | listType
  | tupleType
  | setType
  | frozenSetType
  | dateType
  | dateParsing
  | timeType
  | timeParsing
  | timeRange
  | dateTimeType
  | dateTimeParsing
  | dateTimeRange
  | timeDeltaType
  | timeDeltaParsing
deriving DecidableEq, Repr

/-- Modelled from the spec: the fixed snake_case tag of each error kind,
as shown after `kind=` in the rendering. -/
def ErrorKind.toText : ErrorKind → String
  | .strType => "str_type"
  | .bytesType => "bytes_type"
  | .boolType => "bool_type"
  | .boolParsing => "bool_parsing"
  | .intType => "int_type"
  | .intParsing => "int_parsing"
  | .floatNotInt => "float_not_int"
  | .floatType => "float_type"
  | .floatParsing => "float_parsing"
  | .dictType => "dict_type"
  | .listType => "list_type"
  | .tupleType => "tuple_type"
  | .setType => "set_type"
  | .frozenSetType => "frozen_set_type"
  | .dateType => "date_type"
  | .dateParsing => "date_parsing"
  | .timeType => "time_type"
  | .timeParsing => "time_parsing"
  | .timeRange => "time_range"
  | .dateTimeType => "datetime_type"
  | .dateTimeParsing => "datetime_parsing"
  | .dateTimeRange => "datetime_range"
  | .timeDeltaType => "time_delta_type"
  | .timeDeltaParsing => "time_delta_parsing"

/-- Modelled from the spec: the rendered human-readable message of each error
kind (its message template; none of the kinds used here carries context). -/
def ErrorKind.render : ErrorKind → String
  | .strType => "Input should be a valid string"
  | .bytesType => "Input should be a valid bytes"
  | .boolType => "Input should be a valid boolean"
  | .boolParsing => "Input should be a valid boolean, unable to interpret input"
  | .intType => "Input should be a valid integer"
  | .intParsing => "Input should be a valid integer, unable to parse string as an integer"
  | .floatNotInt => "Input should be a valid integer, got a number with a fractional part"
  | .floatType => "Input should be a valid number"
  | .floatParsing => "Input should be a valid number, unable to parse string as a number"
  | .dictType => "Input should be a valid dictionary"
  | .listType => "Input should be a valid list"
  | .tupleType => "Input should be a valid tuple"
  | .setType => "Input should be a valid set"
  | .frozenSetType => "Input should be a valid frozenset"
  | .dateType => "Input should be a valid date"
  | .dateParsing => "Input should be a valid date, unable to parse string as a date"
  | .timeType => "Input should be a valid time"
  | .timeParsing => "Input should be a valid time, unable to parse string as a time"
  | .timeRange => "Input should be a time in seconds within the day"
  | .dateTimeType => "Input should be a valid datetime"
  | .dateTimeParsing => "Input should be a valid datetime, unable to parse string as a datetime"
  | .dateTimeRange => "Input should be a datetime within the documented epoch range"
  | .timeDeltaType => "Input should be a valid timedelta"
  | .timeDeltaParsing => "Input should be a valid timedelta, unable to parse string as a timedelta"

/-- A host-language (Python) object as seen by the error layer: its repr
string, its display string and its type name. -/
structure PyObj where
  reprStr : String
  str : String
  typeName : String
deriving DecidableEq, Repr

/-- The JSON document tree: the closed set of shapes supplied by the upstream
parser (`JsonInput` in src/input/mod.rs, used by src/input/input_json.rs). -/
inductive JsonInput where
  | null
  | bool (b : Bool)
  | int (i : Int)
  | float (f : ℚ)
  | string (s : String)
  | array (a : List JsonInput)
  | object (o : List (String × JsonInput))

/-- A captured reference to the offending input value (`InputValue`). -/
inductive InputValue where
  | jsonInput (j : JsonInput)
  | string (s : String)
  | pyObject (o : PyObj)

/-- One validation failure: kind, location and offending value (`ValLineError`). -/
structure ValLineError where
  kind : ErrorKind
  location : List LocItem
  input_value : InputValue

/-- An opaque host exception carried by a fatal/internal outcome. -/
structure PyErrRep where
  message : String
deriving DecidableEq, Repr

/-- The failure side of a validation outcome: recoverable line errors or an
internal/fatal error (`ValError`). -/
inductive ValError where
  | lineErrors (errors : List ValLineError)
  | internalErr (err : PyErrRep)

/-- `ValError::new(kind, input)`: a single line error at the root location
holding the input's error value. -/
def ValError.new (kind : ErrorKind) (input : InputValue) : ValError :=
  .lineErrors [{ kind := kind, location := [], input_value := input }]

/-- The kinds carried by a failure, in order. -/
def ValError.kinds : ValError → List ErrorKind
  | .lineErrors es => es.map (fun e => e.kind)
  | .internalErr _ => []

/-- `ValResult<T>`. -/
abbrev ValResult (α : Type) := Except ValError α

/-- Two coercion results agree when they succeed with the same value or fail
with the same error kinds (the captured input value may differ between
representations). -/
def sameOutcome {α : Type} : ValResult α → ValResult α → Prop
  | .ok a, .ok b => a = b
  | .error e1, .error e2 => e1.kinds = e2.kinds
  | _, _ => False

/-- ASCII digit test. -/
def isAsciiDigit (c : Char) : Bool := decide ('0' ≤ c) && decide (c ≤ '9')

/-- Numeric value of an ASCII digit. -/
def digitVal (c : Char) : Nat := c.toNat - 48

/-- A non-empty all-digit run parsed as a natural number, base 10. -/
def parseDigits : List Char → Option Nat
  | [] => none
  | cs =>
    if cs.all isAsciiDigit then some (cs.foldl (fun acc c => acc * 10 + digitVal c) 0)
    else none

/-- An optional leading sign. -/
def parseSign : List Char → Int × List Char
  | '+' :: rest => (1, rest)
  | '-' :: rest => (-1, rest)
  | rest => (1, rest)

/-- Smallest `i64` value. -/
def i64Min : Int := -(2 ^ 63)

/-- Largest `i64` value. -/
def i64Max : Int := 2 ^ 63 - 1

/-- Rust `str::parse::<i64>`: an optional sign followed by one or more ASCII
digits, with the value required to fit in the i64 range. -/
def parseI64 (str : String) : Option Int :=
  let (sign, digits) := parseSign str.data
  match parseDigits digits with
  | none => none
  | some n =>
    let v : Int := sign * (n : Int)
    if i64Min ≤ v ∧ v ≤ i64Max then some v else none

/-- Split a character list at the first exponent marker `e`/`E`. -/
def splitExp : List Char → List Char × Option (List Char)
  | [] => ([], none)
  | c :: rest =>
    if c = 'e' ∨ c = 'E' then ([], some rest)
    else
      let (m, e) := splitExp rest
      (c :: m, e)

/-- Split a character list at the first decimal point. -/
def splitDot : List Char → List Char × Option (List Char)
  | [] => ([], none)
  | c :: rest =>
    if c = '.' then ([], some rest)
    else
      let (m, e) := splitDot rest
      (c :: m, e)

/-- Value of a (possibly empty) digit run, base 10. -/
def digitsVal (cs : List Char) : Nat := cs.foldl (fun acc c => acc * 10 + digitVal c) 0

/-- A decimal mantissa: `digits`, `digits.digits?` or `.digits`, as an exact
rational. -/
def parseMantissa (cs : List Char) : Option ℚ :=
  let (intPart, fracOpt) := splitDot cs
  match fracOpt with
  | none => (parseDigits intPart).map (fun n => (n : ℚ))
  | some frac =>
    if (intPart ≠ [] ∨ frac ≠ []) ∧ intPart.all isAsciiDigit ∧ frac.all isAsciiDigit then
      some ((digitsVal intPart : ℚ) + (digitsVal frac : ℚ) / ((10 : ℚ) ^ frac.length))
    else none

/-- A decimal exponent: optional sign and one or more digits. -/
def parseExp (cs : List Char) : Option Int :=
  let (sign, ds) := parseSign cs
  (parseDigits ds).map (fun n => sign * (n : Int))

/-- Rust `str::parse::<f64>` on finite decimal literals, taken exactly over
the rationals: optional sign, decimal mantissa, optional exponent.
Non-finite literals (`inf`, `nan`) are outside this model. -/
def parseF64 (str : String) : Option ℚ :=
  let (sign, rest) := parseSign str.data
  let (mant, expPart) := splitExp rest
  match parseMantissa mant, expPart with
  | some m, none => some ((sign : ℚ) * m)
  | some m, some ecs =>
    match parseExp ecs with
    | some e => some ((sign : ℚ) * m * (10 : ℚ) ^ e)
    | none => none
  | none, _ => none

/-- ASCII lowering of one character. -/
def asciiLower (c : Char) : Char :=
  if 'A' ≤ c ∧ c ≤ 'Z' then Char.ofNat (c.toNat + 32) else c

/-- ASCII case folding of a string (the case-insensitive token comparison). -/
def lowerAscii (s : String) : String := String.mk (s.data.map asciiLower)

/-- The tokens recognised as `false` by lax boolean coercion. -/
def falseTokens : List String := ["false", "no", "off", "0"]

/-- The tokens recognised as `true` by lax boolean coercion. -/
def trueTokens : List String := ["true", "yes", "on", "1"]

/-- Modelled from the spec: the shared helper `str_as_bool`
(src/input/shared.rs is not part of this snapshot): a case-insensitive fixed
allow-list of boolean tokens succeeds; any other string fails with
`BoolParsing`. -/
def str_as_bool (input : InputValue) (s : String) : ValResult Bool :=
  if lowerAscii s ∈ falseTokens then .ok false
  else if lowerAscii s ∈ trueTokens then .ok true
  else .error (ValError.new .boolParsing input)

/-- Modelled from the spec: the shared helper `int_as_bool`
(src/input/shared.rs is not part of this snapshot): only the integers 0 and 1
are boolean-coercible; anything else fails with `BoolParsing`. -/
def int_as_bool (input : InputValue) (i : Int) : ValResult Bool :=
  if i = 0 then .ok false
  else if i = 1 then .ok true
  else .error (ValError.new .boolParsing input)

/-- Modelled from the spec: the shared helper `float_as_int`
(src/input/shared.rs is not part of this snapshot): a float with zero
fractional part yields its integral value; anything else fails with the
distinct not-an-integer kind. -/
def float_as_int (input : InputValue) (f : ℚ) : ValResult Int :=
  if f.den = 1 then .ok f.num
  else .error (ValError.new .floatNotInt input)

/-- Modelled from the spec: the shared helper `str_as_int`
(src/input/shared.rs is not part of this snapshot): a string parseable as a
base-10 integer yields that integer; anything else fails with `IntParsing`. -/
def str_as_int (input : InputValue) (str : String) : ValResult Int :=
  match parseI64 str with
  | some i => .ok i
  | none => .error (ValError.new .intParsing input)

/-- A time of day (`EitherTime`). -/
structure Time where
  hour : Nat
  minute : Nat
  second : Nat
  microsecond : Nat
deriving DecidableEq, Repr

/-- A calendar date (`EitherDate`). -/
structure Date where
  year : Int
  month : Nat
  day : Nat
deriving DecidableEq, Repr

/-- A date with a time of day (`EitherDateTime`). -/
structure DateTime where
  date : Date
  time : Time
deriving DecidableEq, Repr

/-- A signed duration (`EitherTimedelta`). -/
structure Duration where
  seconds : Int
  microsecond : Nat
deriving DecidableEq, Repr

/-- Exactly two ASCII digits, returning their value and the rest. -/
def parse2 : List Char → Option (Nat × List Char)
  | a :: b :: rest =>
    if isAsciiDigit a ∧ isAsciiDigit b then some (digitVal a * 10 + digitVal b, rest)
    else none
  | _ => none

/-- Exactly four ASCII digits, returning their value and the rest. -/
def parse4 : List Char → Option (Nat × List Char)
  | a :: b :: c :: d :: rest =>
    if isAsciiDigit a ∧ isAsciiDigit b ∧ isAsciiDigit c ∧ isAsciiDigit d then
      some (digitVal a * 1000 + digitVal b * 100 + digitVal c * 10 + digitVal d, rest)
    else none
  | _ => none

/-- Canonical `HH:MM:SS` prefix of a time string, returning the rest. -/
def parseTimePart (cs : List Char) : Option (Time × List Char) := do
  let (h, cs) ← parse2 cs
  match cs with
  | ':' :: cs => do
    let (m, cs) ← parse2 cs
    match cs with
    | ':' :: cs => do
      let (sec, cs) ← parse2 cs
      if h < 24 ∧ m < 60 ∧ sec < 60 then pure (⟨h, m, sec, 0⟩, cs) else none
    | _ => none
  | _ => none

/-- Canonical `YYYY-MM-DD` prefix of a date string, returning the rest. -/
def parseDatePart (cs : List Char) : Option (Date × List Char) := do
  let (y, cs) ← parse4 cs
  match cs with
  | '-' :: cs => do
    let (mo, cs) ← parse2 cs
    match cs with
    | '-' :: cs => do
      let (d, cs) ← parse2 cs
      if 1 ≤ mo ∧ mo ≤ 12 ∧ 1 ≤ d ∧ d ≤ 31 then pure (⟨(y : Int), mo, d⟩, cs) else none
    | _ => none
  | _ => none

/-- Modelled from the spec: `bytes_as_time` (src/input/datetime.rs is not part
of this snapshot): the canonical `HH:MM:SS` text layout, rejecting any
remainder; any other string fails with `TimeParsing`. -/
def bytes_as_time (input : InputValue) (s : String) : ValResult Time :=
  match parseTimePart s.data with
  | some (t, []) => .ok t
  | _ => .error (ValError.new .timeParsing input)

/-- Modelled from the spec: `bytes_as_date` (src/input/datetime.rs is not part
of this snapshot): the canonical `YYYY-MM-DD` text layout; a date string with
any remainder (such as a time of day) is rejected with `DateParsing`. -/
def bytes_as_date (input : InputValue) (s : String) : ValResult Date :=
  match parseDatePart s.data with
  | some (d, []) => .ok d
  | _ => .error (ValError.new .dateParsing input)

/-- Modelled from the spec: `bytes_as_datetime` (src/input/datetime.rs is not
part of this snapshot): the canonical `YYYY-MM-DDTHH:MM:SS` text layout; any
other string fails with `DateTimeParsing`. -/
def bytes_as_datetime (input : InputValue) (s : String) : ValResult DateTime :=
  match parseDatePart s.data with
  | some (d, 'T' :: rest) =>
    match parseTimePart rest with
    | some (t, []) => .ok ⟨d, t⟩
    | _ => .error (ValError.new .dateTimeParsing input)
  | _ => .error (ValError.new .dateTimeParsing input)

/-- Modelled from the spec: `bytes_as_timedelta` (src/input/datetime.rs is not
part of this snapshot): the canonical `[+-]H+:MM:SS` text layout; any other
string fails with `TimeDeltaParsing`. -/
def bytes_as_timedelta (input : InputValue) (s : String) : ValResult Duration :=
  let (sign, cs) := parseSign s.data
  let hs := cs.takeWhile isAsciiDigit
  match parseDigits hs, cs.dropWhile isAsciiDigit with
  | some h, ':' :: rest =>
    (match parse2 rest with
     | some (m, ':' :: rest2) =>
       (match parse2 rest2 with
        | some (sec, []) =>
          if m < 60 ∧ sec < 60 then .ok ⟨sign * (h * 3600 + m * 60 + sec), 0⟩
          else .error (ValError.new .timeDeltaParsing input)
        | _ => .error (ValError.new .timeDeltaParsing input))
     | _ => .error (ValError.new .timeDeltaParsing input))
  | _, _ => .error (ValError.new .timeDeltaParsing input)

/-- Modelled from the spec: epoch-numeric time: an integer is interpreted as
seconds within the day; values outside `[0, 86400)` fail with the dedicated
range kind, not a parsing kind. -/
def int_as_time (input : InputValue) (t : Int) (microsecond : Nat) : ValResult Time :=
  if 0 ≤ t ∧ t < 86400 then
    let s := t.toNat
    .ok ⟨s / 3600, s % 3600 / 60, s % 60, microsecond⟩
  else .error (ValError.new .timeRange input)

/-- Modelled from the spec: epoch-numeric time from a float: whole seconds and
the fractional part as microseconds. -/
def float_as_time (input : InputValue) (f : ℚ) : ValResult Time :=
  int_as_time input ⌊f⌋ (((f - (⌊f⌋ : ℚ)) * 1000000).floor.toNat)

/-- Gregorian civil date from a count of days since 1970-01-01 (the standard
civil-from-days algorithm). -/
def civilFromDays (z0 : Int) : Date :=
  let z := z0 + 719468
  let era := z.fdiv 146097
  let doe := (z - era * 146097).toNat
  let yoe := (doe - doe / 1460 + doe / 36524 - doe / 146096) / 365
  let y := (yoe : Int) + era * 400
  let doy := doe - (365 * yoe + yoe / 4 - yoe / 100)
  let mp := (5 * doy + 2) / 153
  let d := doy - (153 * mp + 2) / 5 + 1
  let m := if mp < 10 then mp + 3 else mp - 9
  ⟨y + (if m ≤ 2 then 1 else 0), m, d⟩

/-- Lowest accepted epoch-second value (midnight, year 1). -/
def datetimeSecondsMin : Int := -62135596800

/-- Highest accepted epoch-second value (last second of year 9999). -/
def datetimeSecondsMax : Int := 253402300799

/-- Modelled from the spec: epoch-numeric datetime: an integer is interpreted
as seconds relative to 1970-01-01T00:00:00; values outside the documented
range (years 1 to 9999) fail with the dedicated range kind, not a parsing
kind. -/
def int_as_datetime (input : InputValue) (t : Int) (microsecond : Nat) : ValResult DateTime :=
  if datetimeSecondsMin ≤ t ∧ t ≤ datetimeSecondsMax then
    let sod := (t.emod 86400).toNat
    .ok ⟨civilFromDays (t.fdiv 86400), ⟨sod / 3600, sod % 3600 / 60, sod % 60, microsecond⟩⟩
  else .error (ValError.new .dateTimeRange input)

/-- Modelled from the spec: epoch-numeric datetime from a float: whole seconds
and the fractional part as microseconds. -/
def float_as_datetime (input : InputValue) (f : ℚ) : ValResult DateTime :=
  int_as_datetime input ⌊f⌋ (((f - (⌊f⌋ : ℚ)) * 1000000).floor.toNat)

/-- Modelled from the spec: `int_as_duration`: an integer as a duration in
whole seconds (infallible). -/
def int_as_duration (t : Int) : Duration := ⟨t, 0⟩

/-- Modelled from the spec: `float_as_duration`: a float as whole seconds plus
fractional microseconds (infallible). -/
def float_as_duration (f : ℚ) : Duration :=
  ⟨⌊f⌋, (((f - (⌊f⌋ : ℚ)) * 1000000).floor.toNat)⟩

/-- The byte view of a string (`as_bytes`), modelled as its code points. -/
def strBytes (s : String) : List Nat := s.data.map Char.toNat

/-- A sequence view into the document tree (`GenericSequence`). -/
abbrev GenericSequence := List JsonInput

/-- A mapping view into the document tree (`GenericMapping`). -/
abbrev GenericMapping := List (String × JsonInput)

namespace JsonInput

/-- `as_error_value` for the JSON representation. -/
def as_error_value (v : JsonInput) : InputValue := .jsonInput v

/-- `is_none`. -/
def is_none : JsonInput → Bool
  | .null => true
  | _ => false

/-- `strict_str`. -/
def strict_str : JsonInput → ValResult String
  | .string s => .ok s
  | v => .error (ValError.new .strType v.as_error_value)

/-- `lax_str`: numbers are additionally stringified. -/
def lax_str : JsonInput → ValResult String
  | .string s => .ok s
  | .int i => .ok (toString i)
  | .float f => .ok (toString f)
  | v => .error (ValError.new .strType v.as_error_value)

/-- `validate_bytes`: the strict flag is unused. -/
def validate_bytes (v : JsonInput) (_strict : Bool) : ValResult (List Nat) :=
  match v with
  | .string s => .ok (strBytes s)
  | v => .error (ValError.new .bytesType v.as_error_value)

/-- `strict_bytes`. -/
def strict_bytes (v : JsonInput) : ValResult (List Nat) :=
  v.validate_bytes false

/-- `strict_bool`. -/
def strict_bool : JsonInput → ValResult Bool
  | .bool b => .ok b
  | v => .error (ValError.new .boolType v.as_error_value)

/-- `lax_bool`. -/
def lax_bool (v : JsonInput) : ValResult Bool :=
  match v with
  | .bool b => .ok b
  | .string s => str_as_bool v.as_error_value s
  | .int i => int_as_bool v.as_error_value i
  | .float f =>
    match float_as_int v.as_error_value f with
    | .ok i => int_as_bool v.as_error_value i
    | _ => .error (ValError.new .boolType v.as_error_value)
  | v => .error (ValError.new .boolType v.as_error_value)

/-- `strict_int`. -/
def strict_int : JsonInput → ValResult Int
  | .int i => .ok i
  | v => .error (ValError.new .intType v.as_error_value)

/-- `lax_int`. -/
def lax_int (v : JsonInput) : ValResult Int :=
  match v with
  | .bool true => .ok 1
  | .bool false => .ok 0
  | .int i => .ok i
  | .float f => float_as_int v.as_error_value f
  | .string str => str_as_int v.as_error_value str
  | v => .error (ValError.new .intType v.as_error_value)

/-- `strict_float`: a native float or int. -/
def strict_float : JsonInput → ValResult ℚ
  | .float f => .ok f
  | .int i => .ok (i : ℚ)
  | v => .error (ValError.new .floatType v.as_error_value)

/-- `lax_float`. -/
def lax_float (v : JsonInput) : ValResult ℚ :=
  match v with
  | .bool true => .ok 1
  | .bool false => .ok 0
  | .float f => .ok f
  | .int i => .ok (i : ℚ)
  | .string str =>
    match parseF64 str with
    | some q => .ok q
    | none => .error (ValError.new .floatParsing v.as_error_value)
  | v => .error (ValError.new .floatType v.as_error_value)

/-- `validate_dict`: the strict flag is unused. -/
def validate_dict (v : JsonInput) (_strict : Bool) : ValResult GenericMapping :=
  match v with
  | .object dict => .ok dict
  | v => .error (ValError.new .dictType v.as_error_value)

/-- `strict_dict`. -/
def strict_dict (v : JsonInput) : ValResult GenericMapping :=
  v.validate_dict false

/-- `validate_list`: the strict flag is unused. -/
def validate_list (v : JsonInput) (_strict : Bool) : ValResult GenericSequence :=
  match v with
  | .array a => .ok a
  | v => .error (ValError.new .listType v.as_error_value)

/-- `strict_list`. -/
def strict_list (v : JsonInput) : ValResult GenericSequence :=
  v.validate_list false

/-- `validate_tuple`: an array has to be allowed, the strict flag is unused. -/
def validate_tuple (v : JsonInput) (_strict : Bool) : ValResult GenericSequence :=
  match v with
  | .array a => .ok a
  | v => .error (ValError.new .tupleType v.as_error_value)

/-- `strict_tuple`. -/
def strict_tuple (v : JsonInput) : ValResult GenericSequence :=
  v.validate_tuple false

/-- `validate_set`: an array is allowed since JSON has no set literal; the
strict flag is unused. -/
def validate_set (v : JsonInput) (_strict : Bool) : ValResult GenericSequence :=
  match v with
  | .array a => .ok a
  | v => .error (ValError.new .setType v.as_error_value)

/-- `strict_set`. -/
def strict_set (v : JsonInput) : ValResult GenericSequence :=
  v.validate_set false

/-- `validate_frozenset`: an array is allowed since JSON has no frozenset
literal; the strict flag is unused. -/
def validate_frozenset (v : JsonInput) (_strict : Bool) : ValResult GenericSequence :=
  match v with
  | .array a => .ok a
  | v => .error (ValError.new .frozenSetType v.as_error_value)

/-- `strict_frozenset`. -/
def strict_frozenset (v : JsonInput) : ValResult GenericSequence :=
  v.validate_frozenset false

/-- `validate_date`: only a string can be a date; the strict flag is unused. -/
def validate_date (v : JsonInput) (_strict : Bool) : ValResult Date :=
  match v with
  | .string s => bytes_as_date v.as_error_value s
  | v => .error (ValError.new .dateType v.as_error_value)

/-- `strict_date`. -/
def strict_date (v : JsonInput) : ValResult Date :=
  v.validate_date false

/-- `strict_time`. -/
def strict_time (v : JsonInput) : ValResult Time :=
  match v with
  | .string s => bytes_as_time v.as_error_value s
  | v => .error (ValError.new .timeType v.as_error_value)

/-- `lax_time`: integers and floats are additionally interpreted as seconds. -/
def lax_time (v : JsonInput) : ValResult Time :=
  match v with
  | .string s => bytes_as_time v.as_error_value s
  | .int i => int_as_time v.as_error_value i 0
  | .float f => float_as_time v.as_error_value f
  | v => .error (ValError.new .timeType v.as_error_value)

/-- `strict_datetime`. -/
def strict_datetime (v : JsonInput) : ValResult DateTime :=
  match v with
  | .string s => bytes_as_datetime v.as_error_value s
  | v => .error (ValError.new .dateTimeType v.as_error_value)

/-- `lax_datetime`: integers and floats are additionally interpreted as epoch
seconds. -/
def lax_datetime (v : JsonInput) : ValResult DateTime :=
  match v with
  | .string s => bytes_as_datetime v.as_error_value s
  | .int i => int_as_datetime v.as_error_value i 0
  | .float f => float_as_datetime v.as_error_value f
  | v => .error (ValError.new .dateTimeType v.as_error_value)

/-- `strict_timedelta`. -/
def strict_timedelta (v : JsonInput) : ValResult Duration :=
  match v with
  | .string s => bytes_as_timedelta v.as_error_value s
  | v => .error (ValError.new .timeDeltaType v.as_error_value)

/-- `lax_timedelta`: integers and floats are additionally interpreted as
seconds, infallibly. -/
def lax_timedelta (v : JsonInput) : ValResult Duration :=
  match v with
  | .string s => bytes_as_timedelta v.as_error_value s
  | .int i => .ok (int_as_duration i)
  | .float f => .ok (float_as_duration f)
  | v => .error (ValError.new .timeDeltaType v.as_error_value)

end JsonInput

/-- `as_error_value` for the bare-string representation (a dict key behaving
as an input). -/
def String.as_error_value (s : String) : InputValue := .string s

/-- `is_none` for a bare string: never none. -/
def String.is_none (_s : String) : Bool := false

/-- `validate_str` for a bare string: the string itself, the strict flag is
unused. -/
def String.validate_str (s : String) (_strict : Bool) : ValResult String := .ok s

/-- `strict_str` for a bare string. -/
def String.strict_str (s : String) : ValResult String := String.validate_str s false

/-- `validate_bytes` for a bare string: its byte view, the strict flag is
unused. -/
def String.validate_bytes (s : String) (_strict : Bool) : ValResult (List Nat) :=
  .ok (strBytes s)

/-- `strict_bytes` for a bare string. -/
def String.strict_bytes (s : String) : ValResult (List Nat) := String.validate_bytes s false

/-- `strict_bool` for a bare string: always a type error. -/
def String.strict_bool (s : String) : ValResult Bool :=
  .error (ValError.new .boolType (String.as_error_value s))

/-- `lax_bool` for a bare string: the shared token allow-list. -/
def String.lax_bool (s : String) : ValResult Bool :=
  str_as_bool (String.as_error_value s) s

/-- `strict_int` for a bare string: always a type error. -/
def String.strict_int (s : String) : ValResult Int :=
  .error (ValError.new .intType (String.as_error_value s))

/-- `lax_int` for a bare string: `self.parse()` with `IntParsing` on failure. -/
def String.lax_int (s : String) : ValResult Int :=
  match parseI64 s with
  | some i => .ok i
  | none => .error (ValError.new .intParsing (String.as_error_value s))

/-- `strict_float` for a bare string: always a type error. -/
def String.strict_float (s : String) : ValResult ℚ :=
  .error (ValError.new .floatType (String.as_error_value s))

/-- `lax_float` for a bare string: `self.parse()` with `FloatParsing` on
failure. -/
def String.lax_float (s : String) : ValResult ℚ :=
  match parseF64 s with
  | some q => .ok q
  | none => .error (ValError.new .floatParsing (String.as_error_value s))

/-- `validate_dict` for a bare string: always a type error. -/
def String.validate_dict (s : String) (_strict : Bool) : ValResult GenericMapping :=
  .error (ValError.new .dictType (String.as_error_value s))

/-- `strict_dict` for a bare string. -/
def String.strict_dict (s : String) : ValResult GenericMapping := String.validate_dict s false

/-- `validate_list` for a bare string: always a type error. -/
def String.validate_list (s : String) (_strict : Bool) : ValResult GenericSequence :=
  .error (ValError.new .listType (String.as_error_value s))

/-- `strict_list` for a bare string. -/
def String.strict_list (s : String) : ValResult GenericSequence := String.validate_list s false

/-- `validate_tuple` for a bare string: always a type error. -/
def String.validate_tuple (s : String) (_strict : Bool) : ValResult GenericSequence :=
  .error (ValError.new .tupleType (String.as_error_value s))

/-- `strict_tuple` for a bare string. -/
def String.strict_tuple (s : String) : ValResult GenericSequence := String.validate_tuple s false

/-- `validate_set` for a bare string: always a type error. -/
def String.validate_set (s : String) (_strict : Bool) : ValResult GenericSequence :=
  .error (ValError.new .setType (String.as_error_value s))

/-- `strict_set` for a bare string. -/
def String.strict_set (s : String) : ValResult GenericSequence := String.validate_set s false

/-- `validate_frozenset` for a bare string: always a type error. -/
def String.validate_frozenset (s : String) (_strict : Bool) : ValResult GenericSequence :=
  .error (ValError.new .frozenSetType (String.as_error_value s))

/-- `strict_frozenset` for a bare string. -/
def String.strict_frozenset (s : String) : ValResult GenericSequence :=
  String.validate_frozenset s false

/-- `validate_date` for a bare string: the canonical text parse, the strict
flag is unused. -/
def String.validate_date (s : String) (_strict : Bool) : ValResult Date :=
  bytes_as_date (String.as_error_value s) s

/-- `strict_date` for a bare string. -/
def String.strict_date (s : String) : ValResult Date := String.validate_date s false

/-- `validate_time` for a bare string: the canonical text parse, the strict
flag is unused. -/
def String.validate_time (s : String) (_strict : Bool) : ValResult Time :=
  bytes_as_time (String.as_error_value s) s

/-- `strict_time` for a bare string. -/
def String.strict_time (s : String) : ValResult Time := String.validate_time s false

/-- `validate_datetime` for a bare string: the canonical text parse, the
strict flag is unused. -/
def String.validate_datetime (s : String) (_strict : Bool) : ValResult DateTime :=
  bytes_as_datetime (String.as_error_value s) s

/-- `strict_datetime` for a bare string. -/
def String.strict_datetime (s : String) : ValResult DateTime := String.validate_datetime s false

/-- `validate_timedelta` for a bare string: the canonical text parse, the
strict flag is unused. -/
def String.validate_timedelta (s : String) (_strict : Bool) : ValResult Duration :=
  bytes_as_timedelta (String.as_error_value s) s

/-- `strict_timedelta` for a bare string. -/
def String.strict_timedelta (s : String) : ValResult Duration := String.validate_timedelta s false

/-- The Python type name of a converted JSON value. -/
def JsonInput.typeName : JsonInput → String
  | .null => "NoneType"
  | .bool _ => "bool"
  | .int _ => "int"
  | .float _ => "float"
  | .string _ => "str"
  | .array _ => "list"
  | .object _ => "dict"

mutual

/-- Modelled from the spec: the owned string snapshot of a JSON value taken
when a captured view is promoted into a long-lived aggregate. -/
def JsonInput.render : JsonInput → String
  | .null => "None"
  | .bool true => "True"
  | .bool false => "False"
  | .int i => toString i
  | .float f => toString f
  | .string s => "\x27" ++ s ++ "\x27"
  | .array a => "[" ++ JsonInput.renderItems a ++ "]"
  | .object o => "\x7b" ++ JsonInput.renderEntries o ++ "\x7d"

/-- Comma-joined snapshots of array elements. -/
def JsonInput.renderItems : List JsonInput → String
  | [] => ""
  | [v] => JsonInput.render v
  | v :: rest => JsonInput.render v ++ ", " ++ JsonInput.renderItems rest

/-- Comma-joined snapshots of object entries. -/
def JsonInput.renderEntries : List (String × JsonInput) → String
  | [] => ""
  | [(k, v)] => "\x27" ++ k ++ "\x27: " ++ JsonInput.render v
  | (k, v) :: rest =>
    "\x27" ++ k ++ "\x27: " ++ JsonInput.render v ++ ", " ++ JsonInput.renderEntries rest

end

/-- `to_object`: a stored host object is returned as itself; a captured tree
view or string is converted into an owned snapshot (the snapshot arms are
modelled from the spec, the host-object arm is the identity of the source). -/
def InputValue.toObject : InputValue → PyObj
  | .jsonInput j => ⟨j.render, j.render, j.typeName⟩
  | .string s => ⟨"\x27" ++ s ++ "\x27", s, "str"⟩
  | .pyObject o => o

/-- `PyLineError`: the public version of `ValLineError`, held by
`ValidationError`. -/
structure PyLineError where
  kind : ErrorKind
  location : List LocItem
  input_value : PyObj

/-- `IntoPy<PyLineError> for ValLineError`: same kind and location, the input
value converted to a host object. -/
def ValLineError.into_py (e : ValLineError) : PyLineError :=
  { kind := e.kind, location := e.location, input_value := e.input_value.toObject }

/-- `From<PyLineError> for ValLineError`: the opposite direction, used to
extract line errors from a validation error for wrap functions. -/
def PyLineError.toValLineError (e : PyLineError) : ValLineError :=
  { kind := e.kind, location := e.location, input_value := .pyObject e.input_value }

/-- `ValidationError`: the user-facing aggregate of the line errors of one
top-level validation call, with the caller-supplied title. -/
structure ValidationError where
  line_errors : List PyLineError
  title : String

/-- `error_count`. -/
def ValidationError.error_count (e : ValidationError) : Nat := e.line_errors.length

/-- `From<ValidationError> for ValError`: back to line errors for wrap
functions. -/
def ValidationError.toValError (e : ValidationError) : ValError :=
  .lineErrors (e.line_errors.map PyLineError.toValLineError)

/-- The outcome of `ValidationError::from_val_error`: either one constructed
`ValidationError` aggregate or the underlying internal error, unwrapped. -/
inductive PyErrOut where
  | validationError (e : ValidationError)
  | raised (err : PyErrRep)

/-- `ValidationError::from_val_error`: line errors are aggregated in order
into one `ValidationError`; an internal error is returned unwrapped. -/
def ValidationError.from_val_error (title : String) (error : ValError) : PyErrOut :=
  match error with
  | .lineErrors raw_errors => .validationError ⟨raw_errors.map ValLineError.into_py, title⟩
  | .internalErr err => .raised err

/-- Modelled from the spec: the rendering of one location segment
(src/errors/location.rs is not part of this snapshot); string-key and
integer-index segments use distinct, unambiguous forms. -/
def LocItem.render : LocItem → String
  | .s key => key
  | .i index => "[" ++ toString index ++ "]"

/-- Modelled from the spec: location rendering, segments concatenated
root-first. -/
def renderLocation (loc : List LocItem) : String :=
  match loc with
  | [] => "__root__"
  | _ => String.intercalate " -> " (loc.map LocItem.render)

/-- The `truncate_input_value!` macro: displayable forms longer than 50
characters are elided to the first 25 and the last 24 characters joined by
"...". -/
def truncate_input_value (value : String) : String :=
  if value.length > 50 then
    ", input_value=" ++ value.take 25 ++ "..." ++ value.drop (value.length - 24)
  else
    ", input_value=" ++ value

/-- `PyLineError::pretty`: one rendered line; with host access (`py`) the
input repr and its type name are shown, without it the plain display string. -/
def PyLineError.pretty (e : PyLineError) (py : Bool) : String :=
  let head := renderLocation e.location ++ "  " ++ e.kind.render ++ " [kind=" ++ e.kind.toText
  let body :=
    if py then
      head ++ truncate_input_value e.input_value.reprStr ++ ", input_type=" ++ e.input_value.typeName
    else
      head ++ truncate_input_value e.input_value.str
  body ++ "]"

/-- `pretty_py_line_errors`: the rendered lines joined by newlines. -/
def pretty_py_line_errors (py : Bool) (line_errors : List PyLineError) : String :=
  String.intercalate "\n" (line_errors.map (fun e => e.pretty py))

/-- `ValidationError::display`: the deterministic multi-line rendering;
without host access the title falls back to "Schema". -/
def ValidationError.display (e : ValidationError) (py : Bool) : String :=
  let count := e.line_errors.length
  let plural := if count = 1 then "" else "s"
  let title := if py then e.title else "Schema"
  let line_errors := pretty_py_line_errors py e.line_errors
  toString count ++ " validation error" ++ plural ++ " for " ++ title ++ "\n" ++ line_errors

/-- The rendered input value as the spec words it: displayable forms longer
than 50 characters keep their first 25 and last 24 characters joined by
"..."; shorter forms appear in full. -/
def displayedValue (v : String) : String :=
  if 50 < v.length then v.take 25 ++ "..." ++ v.drop (v.length - 24) else v

lemma rat_eq_intCast_iff (f : ℚ) (n : ℤ) : f = (n : ℚ) ↔ f.num = n ∧ f.den = 1 := by
  constructor
  · rintro rfl
    exact ⟨Rat.num_intCast n, Rat.den_intCast n⟩
  · rintro ⟨h1, h2⟩
    rw [← (Rat.den_eq_one_iff f).mp h2, h1]

lemma into_py_toValLineError (le : PyLineError) :
    (PyLineError.toValLineError le).into_py = le := rfl

lemma map_into_py_toValLineError (les : List PyLineError) :
    (les.map PyLineError.toValLineError).map ValLineError.into_py = les := by
  induction les with
  | nil => rfl
  | cons hd tl ih => simp [ih, into_py_toValLineError]

/-- Claim C10: on the JSON representation, every operation that takes a
strict flag but has a single native accepting shape is insensitive to the
flag — validate_bytes, validate_dict, validate_list, validate_tuple,
validate_set, validate_frozenset and validate_date return the same result
for strict and lax, and the corresponding strict operation returns exactly
that result. -/
theorem json_strict_flag_insensitive (v : JsonInput) (fl1 fl2 : Bool) :
    (JsonInput.validate_bytes v fl1 = JsonInput.validate_bytes v fl2
      ∧ JsonInput.strict_bytes v = JsonInput.validate_bytes v fl1)
  ∧ (JsonInput.validate_dict v fl1 = JsonInput.validate_dict v fl2
      ∧ JsonInput.strict_dict v = JsonInput.validate_dict v fl1)
  ∧ (JsonInput.validate_list v fl1 = JsonInput.validate_list v fl2
      ∧ JsonInput.strict_list v = JsonInput.validate_list v fl1)
  ∧ (JsonInput.validate_tuple v fl1 = JsonInput.validate_tuple v fl2
      ∧ JsonInput.strict_tuple v = JsonInput.validate_tuple v fl1)
  ∧ (JsonInput.validate_set v fl1 = JsonInput.validate_set v fl2
      ∧ JsonInput.strict_set v = JsonInput.validate_set v fl1)
  ∧ (JsonInput.validate_frozenset v fl1 = JsonInput.validate_frozenset v fl2
      ∧ JsonInput.strict_frozenset v = JsonInput.validate_frozenset v fl1)
  ∧ (JsonInput.validate_date v fl1 = JsonInput.validate_date v fl2
      ∧ JsonInput.strict_date v = JsonInput.validate_date v fl1) :=
  ⟨⟨rfl, rfl⟩, ⟨rfl, rfl⟩, ⟨rfl, rfl⟩, ⟨rfl, rfl⟩, ⟨rfl, rfl⟩, ⟨rfl, rfl⟩, ⟨rfl, rfl⟩⟩

/-- Claim C4: for every JSON input and both strict flags, validate_list,
validate_tuple, validate_set and validate_frozenset succeed exactly on an
array (returning its elements), and on any non-array each fails with its own
specific kind — ListType, TupleType, SetType, FrozenSetType — which are
pairwise distinct. -/
theorem json_validate_sequences (a : GenericSequence) (v : JsonInput) (strict : Bool)
    (h : ∀ xs, v ≠ .array xs) :
    (JsonInput.validate_list (.array a) strict = .ok a
      ∧ JsonInput.validate_tuple (.array a) strict = .ok a
      ∧ JsonInput.validate_set (.array a) strict = .ok a
      ∧ JsonInput.validate_frozenset (.array a) strict = .ok a)
  ∧ (JsonInput.validate_list v strict = .error (ValError.new .listType v.as_error_value)
      ∧ JsonInput.validate_tuple v strict = .error (ValError.new .tupleType v.as_error_value)
      ∧ JsonInput.validate_set v strict = .error (ValError.new .setType v.as_error_value)
      ∧ JsonInput.validate_frozenset v strict
          = .error (ValError.new .frozenSetType v.as_error_value))
  ∧ (ErrorKind.listType ≠ ErrorKind.tupleType ∧ ErrorKind.listType ≠ ErrorKind.setType
      ∧ ErrorKind.listType ≠ ErrorKind.frozenSetType ∧ ErrorKind.tupleType ≠ ErrorKind.setType
      ∧ ErrorKind.tupleType ≠ ErrorKind.frozenSetType
      ∧ ErrorKind.setType ≠ ErrorKind.frozenSetType) := by
  refine ⟨⟨rfl, rfl, rfl, rfl⟩, ?_, by decide⟩
  cases v <;> try exact ⟨rfl, rfl, rfl, rfl⟩
  exact absurd rfl (h _)

/-- Witness for C4 at the concrete non-array input `null`. -/
theorem json_validate_sequences_witness :
    (∀ xs, JsonInput.null ≠ JsonInput.array xs)
  ∧ JsonInput.validate_set .null true
      = .error (ValError.new .setType (JsonInput.as_error_value .null)) :=
  ⟨fun _ h => JsonInput.noConfusion h,
   (json_validate_sequences [] .null true (fun _ h => JsonInput.noConfusion h)).2.1.2.2.1⟩

/-- Claim C5: a validation outcome carrying a (non-empty) list of line errors
becomes exactly one ValidationError aggregate with one public line error per
collected error, in the same order; an internal/fatal error is returned
unwrapped, with no aggregate constructed. -/
theorem from_val_error_spec (title : String) (es : List ValLineError) (ie : PyErrRep)
    (_hne : es ≠ []) :
    ValidationError.from_val_error title (.lineErrors es)
        = .validationError ⟨es.map ValLineError.into_py, title⟩
  ∧ (⟨es.map ValLineError.into_py, title⟩ : ValidationError).error_count = es.length
  ∧ (∀ k : Nat, (es.map ValLineError.into_py)[k]? = (es[k]?).map ValLineError.into_py)
  ∧ ValidationError.from_val_error title (.internalErr ie) = .raised ie := by
  refine ⟨rfl, ?_, ?_, rfl⟩
  · simp [ValidationError.error_count]
  · intro k
    simp [List.getElem?_map]

/-- Witness for C5 with one concrete line error and one concrete internal
error. -/
theorem from_val_error_spec_witness :
    ([({ kind := .intType, location := [], input_value := .string "x" } : ValLineError)] ≠ [])
  ∧ ValidationError.from_val_error "T"
        (.internalErr ⟨"boom"⟩) = .raised ⟨"boom"⟩ :=
  ⟨List.cons_ne_nil _ _,
   (from_val_error_spec "T" [{ kind := .intType, location := [], input_value := .string "x" }]
      ⟨"boom"⟩ (List.cons_ne_nil _ _)).2.2.2⟩

/-- Claim C6: converting a ValidationError back into line errors and
re-aggregating them with the same title reproduces an aggregate with the
same count and, line for line, the same kind, location and input value, and
hence an identical rendering. -/
theorem validation_error_round_trip (e : ValidationError) :
    ∃ e2 : ValidationError,
      ValidationError.from_val_error e.title e.toValError = .validationError e2
    ∧ e2.error_count = e.error_count
    ∧ e2.line_errors.map PyLineError.kind = e.line_errors.map PyLineError.kind
    ∧ e2.line_errors.map PyLineError.location = e.line_errors.map PyLineError.location
    ∧ e2.line_errors.map PyLineError.input_value = e.line_errors.map PyLineError.input_value
    ∧ ∀ py, e2.display py = e.display py := by
  refine ⟨e, ?_, rfl, rfl, rfl, rfl, fun _ => rfl⟩
  show PyErrOut.validationError ⟨(e.line_errors.map PyLineError.toValLineError).map ValLineError.into_py, e.title⟩
      = PyErrOut.validationError e
  rw [map_into_py_toValLineError]

lemma truncate_input_value_eq (v : String) :
    truncate_input_value v = ", input_value=" ++ displayedValue v := by
  by_cases h : v.length > 50 <;>
    simp [truncate_input_value, displayedValue, h, String.append_assoc]

lemma pretty_format (le : PyLineError) (py : Bool) :
    le.pretty py
      = renderLocation le.location ++ "  " ++ le.kind.render ++ " [kind=" ++ le.kind.toText
        ++ ", input_value="
        ++ displayedValue (if py then le.input_value.reprStr else le.input_value.str)
        ++ (if py then ", input_type=" ++ le.input_value.typeName else "") ++ "]" := by
  cases py <;>
    simp [PyLineError.pretty, truncate_input_value_eq, String.append_assoc]

/-- Claim C2: the deterministic rendering of a ValidationError is the header
"count validation error(s) for title" — the plural s present exactly when the
count is not 1 — followed by one line per line error in stored order, each of
the form "location  message [kind=kind, input_value=value(, input_type=type)?]",
where a displayable input form longer than 50 characters is elided to its
first 25 and last 24 characters joined by "..." and a form of at most 50
characters is shown in full. -/
theorem validation_error_display_format (e : ValidationError) (py : Bool) :
    e.display py
      = toString e.line_errors.length ++ " validation error"
        ++ (if e.line_errors.length = 1 then "" else "s") ++ " for "
        ++ (if py then e.title else "Schema") ++ "\n"
        ++ String.intercalate "\n" (e.line_errors.map (fun le =>
            renderLocation le.location ++ "  " ++ le.kind.render ++ " [kind=" ++ le.kind.toText
              ++ ", input_value="
              ++ displayedValue (if py then le.input_value.reprStr else le.input_value.str)
              ++ (if py then ", input_type=" ++ le.input_value.typeName else "") ++ "]"))
  ∧ (∀ v : String, 50 < v.length → displayedValue v = v.take 25 ++ "..." ++ v.drop (v.length - 24))
  ∧ (∀ v : String, v.length ≤ 50 → displayedValue v = v) := by
  refine ⟨?_, ?_, ?_⟩
  · simp only [ValidationError.display, pretty_py_line_errors, pretty_format,
      String.append_assoc]
  · intro v hv
    simp [displayedValue, hv]
  · intro v hv
    simp [displayedValue, Nat.not_lt.mpr hv]

/-- Witness for C2: the elision on a concrete 60-character displayable form
and the full rendering of a short one. -/
theorem validation_error_display_format_witness :
    (50 < ("aaaaaaaaaaaaaaaaaaaaaaaaaaaaaaaaaaaaaaaaaaaaaaaaaaaaaaaaaaaa" : String).length
      ∧ displayedValue "aaaaaaaaaaaaaaaaaaaaaaaaaaaaaaaaaaaaaaaaaaaaaaaaaaaaaaaaaaaa"
          = ("aaaaaaaaaaaaaaaaaaaaaaaaaaaaaaaaaaaaaaaaaaaaaaaaaaaaaaaaaaaa" : String).take 25
            ++ "..."
            ++ ("aaaaaaaaaaaaaaaaaaaaaaaaaaaaaaaaaaaaaaaaaaaaaaaaaaaaaaaaaaaa" : String).drop
                (("aaaaaaaaaaaaaaaaaaaaaaaaaaaaaaaaaaaaaaaaaaaaaaaaaaaaaaaaaaaa" : String).length - 24))
  ∧ (("short" : String).length ≤ 50 ∧ displayedValue "short" = "short") :=
  ⟨⟨by decide,
    (validation_error_display_format ⟨[], "T"⟩ false).2.1
      "aaaaaaaaaaaaaaaaaaaaaaaaaaaaaaaaaaaaaaaaaaaaaaaaaaaaaaaaaaaa" (by decide)⟩,
   ⟨by decide,
    (validation_error_display_format ⟨[], "T"⟩ false).2.2 "short" (by decide)⟩⟩

/-- Claim C1: lax `as_int` on the JSON representation: booleans give 1 and 0,
a native integer gives itself, a float succeeds exactly when it has zero
fractional part (giving that integral value) and otherwise fails with the
distinct not-an-integer kind rather than IntType, a string succeeds exactly
when it parses as a base-10 integer and otherwise fails with IntParsing, and
every other shape fails with IntType; in particular 4.0 gives 4 and 4.5
fails with the not-an-integer kind. -/
theorem json_lax_int_spec :
    (JsonInput.lax_int (.bool true) = .ok 1 ∧ JsonInput.lax_int (.bool false) = .ok 0)
  ∧ (∀ i : Int, JsonInput.lax_int (.int i) = .ok i)
  ∧ (∀ f : ℚ, f.den = 1 → JsonInput.lax_int (.float f) = .ok f.num)
  ∧ (∀ f : ℚ, f.den ≠ 1 → JsonInput.lax_int (.float f)
      = .error (ValError.new .floatNotInt (.jsonInput (.float f))))
  ∧ ErrorKind.floatNotInt ≠ ErrorKind.intType
  ∧ (∀ (s : String) (i : Int), parseI64 s = some i →
      JsonInput.lax_int (.string s) = .ok i)
  ∧ (∀ s : String, parseI64 s = none → JsonInput.lax_int (.string s)
      = .error (ValError.new .intParsing (.jsonInput (.string s))))
  ∧ JsonInput.lax_int .null = .error (ValError.new .intType (.jsonInput .null))
  ∧ (∀ a, JsonInput.lax_int (.array a)
      = .error (ValError.new .intType (.jsonInput (.array a))))
  ∧ (∀ o, JsonInput.lax_int (.object o)
      = .error (ValError.new .intType (.jsonInput (.object o))))
  ∧ JsonInput.lax_int (.float 4) = .ok 4
  ∧ JsonInput.lax_int (.float (Rat.divInt 9 2))
      = .error (ValError.new .floatNotInt (.jsonInput (.float (Rat.divInt 9 2)))) := by
  refine ⟨⟨rfl, rfl⟩, fun i => rfl, ?_, ?_, by decide, ?_, ?_, rfl, fun a => rfl,
    fun o => rfl, ?_, ?_⟩
  · intro f h
    simp [JsonInput.lax_int, float_as_int, h]
  · intro f h
    simp [JsonInput.lax_int, float_as_int, h, JsonInput.as_error_value]
  · intro s i h
    simp [JsonInput.lax_int, str_as_int, h]
  · intro s h
    simp [JsonInput.lax_int, str_as_int, h, JsonInput.as_error_value]
  · have h4 : (4 : ℚ).den = 1 := by decide
    have hn : (4 : ℚ).num = 4 := by decide
    simp [JsonInput.lax_int, float_as_int, h4, hn]
  · have h92 : (Rat.divInt 9 2).den ≠ 1 := by decide
    simp [JsonInput.lax_int, float_as_int, h92, JsonInput.as_error_value]

/-- Witness for C1: the integral float 4.0 coerces to the integer 4. -/
theorem json_lax_int_spec_witness :
    (4 : ℚ).den = 1 ∧ JsonInput.lax_int (.float 4) = .ok (4 : ℚ).num :=
  ⟨by decide, json_lax_int_spec.2.2.1 4 (by decide)⟩

/-- Claim C3: lax `as_bool` on the JSON representation: a native boolean gives
itself; a string succeeds exactly on the fixed case-insensitive token
allow-list ("yes" gives true, "0" gives false) and otherwise fails with
BoolParsing, not BoolType (for example "maybe"); an integer succeeds exactly
on 0 and 1; a float succeeds exactly when it equals 0 or 1; every other
shape fails. -/
theorem json_lax_bool_spec :
    (∀ b, JsonInput.lax_bool (.bool b) = .ok b)
  ∧ JsonInput.lax_bool (.string "yes") = .ok true
  ∧ JsonInput.lax_bool (.string "0") = .ok false
  ∧ (∀ s : String, (∃ b, JsonInput.lax_bool (.string s) = .ok b) ↔
      (lowerAscii s ∈ trueTokens ∨ lowerAscii s ∈ falseTokens))
  ∧ (∀ s : String, lowerAscii s ∉ trueTokens → lowerAscii s ∉ falseTokens →
      JsonInput.lax_bool (.string s)
        = .error (ValError.new .boolParsing (.jsonInput (.string s))))
  ∧ JsonInput.lax_bool (.string "maybe")
      = .error (ValError.new .boolParsing (.jsonInput (.string "maybe")))
  ∧ ErrorKind.boolParsing ≠ ErrorKind.boolType
  ∧ (∀ i : Int, (∃ b, JsonInput.lax_bool (.int i) = .ok b) ↔ (i = 0 ∨ i = 1))
  ∧ (∀ f : ℚ, (∃ b, JsonInput.lax_bool (.float f) = .ok b) ↔ (f = 0 ∨ f = 1))
  ∧ JsonInput.lax_bool .null = .error (ValError.new .boolType (.jsonInput .null))
  ∧ (∀ a, JsonInput.lax_bool (.array a)
      = .error (ValError.new .boolType (.jsonInput (.array a))))
  ∧ (∀ o, JsonInput.lax_bool (.object o)
      = .error (ValError.new .boolType (.jsonInput (.object o)))) := by
  refine ⟨fun b => rfl, ?_, ?_, ?_, ?_, ?_, by decide, ?_, ?_, rfl, fun a => rfl,
    fun o => rfl⟩
  · have ht : lowerAscii "yes" ∈ trueTokens := by decide
    have hf : lowerAscii "yes" ∉ falseTokens := by decide
    simp [JsonInput.lax_bool, str_as_bool, ht, hf]
  · have hf : lowerAscii "0" ∈ falseTokens := by decide
    simp [JsonInput.lax_bool, str_as_bool, hf]
  · intro s
    by_cases hf : lowerAscii s ∈ falseTokens <;> by_cases ht : lowerAscii s ∈ trueTokens <;>
      simp [JsonInput.lax_bool, str_as_bool, hf, ht]
  · intro s ht hf
    simp [JsonInput.lax_bool, str_as_bool, hf, ht, JsonInput.as_error_value]
  · have ht : lowerAscii "maybe" ∉ trueTokens := by decide
    have hf : lowerAscii "maybe" ∉ falseTokens := by decide
    simp [JsonInput.lax_bool, str_as_bool, hf, ht, JsonInput.as_error_value]
  · intro i
    by_cases h0 : i = 0
    · subst h0
      simp [JsonInput.lax_bool, int_as_bool]
    · by_cases h1 : i = 1 <;> simp [JsonInput.lax_bool, int_as_bool, h0, h1]
  · intro f
    by_cases hden : f.den = 1
    · by_cases h0 : f.num = 0
      · have hf0 : f = 0 := by
          have := (rat_eq_intCast_iff f 0).mpr ⟨h0, hden⟩
          simpa using this
        subst hf0
        simp [JsonInput.lax_bool, float_as_int, int_as_bool]
      · by_cases h1 : f.num = 1
        · have hf1 : f = 1 := by
            have := (rat_eq_intCast_iff f 1).mpr ⟨h1, hden⟩
            simpa using this
          subst hf1
          have d1 : (1 : ℚ).den = 1 := by decide
          have n1 : (1 : ℚ).num = 1 := by decide
          simp [JsonInput.lax_bool, float_as_int, int_as_bool, d1, n1]
        · have hne0 : f ≠ 0 := by
            intro hq
            exact h0 (by simpa using (rat_eq_intCast_iff f 0).mp (by simpa using hq) |>.1)
          have hne1 : f ≠ 1 := by
            intro hq
            exact h1 (by simpa using (rat_eq_intCast_iff f 1).mp (by simpa using hq) |>.1)
          simp [JsonInput.lax_bool, float_as_int, int_as_bool, hden, h0, h1, hne0, hne1]
    · have hne0 : f ≠ 0 := by
        intro hq
        exact hden (by simpa using (rat_eq_intCast_iff f 0).mp (by simpa using hq) |>.2)
      have hne1 : f ≠ 1 := by
        intro hq
        exact hden (by simpa using (rat_eq_intCast_iff f 1).mp (by simpa using hq) |>.2)
      simp [JsonInput.lax_bool, float_as_int, hden, hne0, hne1]

/-- Witness for C3: the string "yes" and the non-token "maybe" at concrete
inputs. -/
theorem json_lax_bool_spec_witness :
    (lowerAscii "maybe" ∉ trueTokens ∧ lowerAscii "maybe" ∉ falseTokens)
  ∧ JsonInput.lax_bool (.string "maybe")
      = .error (ValError.new .boolParsing (.jsonInput (.string "maybe"))) :=
  ⟨⟨by decide, by decide⟩,
   json_lax_bool_spec.2.2.2.2.1 "maybe" (by decide) (by decide)⟩

lemma tokens_disjoint (s : String) :
    lowerAscii s ∈ trueTokens → lowerAscii s ∈ falseTokens → False := by
  intro ht hf
  simp [trueTokens, falseTokens] at ht hf
  rcases ht with h | h | h | h <;> rw [h] at hf <;> simp at hf

/-- Claim C7: the bare-string representation: every strict structural
operation fails with the corresponding type kind for every string and both
flags; the strict scalar operations degrade to the string itself (string and
byte views) and perform no coercion for bool/int/float (failing with the
type kind); the lax scalar operations apply the same token and numeric
parsing rules as the document-tree coercions, succeeding exactly when the
string parses and otherwise failing with the parsing-specific kind. -/
theorem string_input_spec (s : String) (strict : Bool) :
    (String.validate_dict s strict = .error (ValError.new .dictType (.string s))
      ∧ String.validate_list s strict = .error (ValError.new .listType (.string s))
      ∧ String.validate_tuple s strict = .error (ValError.new .tupleType (.string s))
      ∧ String.validate_set s strict = .error (ValError.new .setType (.string s))
      ∧ String.validate_frozenset s strict = .error (ValError.new .frozenSetType (.string s))
      ∧ String.strict_dict s = .error (ValError.new .dictType (.string s))
      ∧ String.strict_list s = .error (ValError.new .listType (.string s))
      ∧ String.strict_tuple s = .error (ValError.new .tupleType (.string s))
      ∧ String.strict_set s = .error (ValError.new .setType (.string s))
      ∧ String.strict_frozenset s = .error (ValError.new .frozenSetType (.string s)))
  ∧ (String.strict_str s = .ok s ∧ String.strict_bytes s = .ok (strBytes s))
  ∧ (String.strict_bool s = .error (ValError.new .boolType (.string s))
      ∧ String.strict_int s = .error (ValError.new .intType (.string s))
      ∧ String.strict_float s = .error (ValError.new .floatType (.string s)))
  ∧ (∀ b, String.lax_bool s = .ok b ↔
      ((b = true ∧ lowerAscii s ∈ trueTokens)
        ∨ (b = false ∧ lowerAscii s ∈ falseTokens)))
  ∧ (lowerAscii s ∉ trueTokens → lowerAscii s ∉ falseTokens →
      String.lax_bool s = .error (ValError.new .boolParsing (.string s)))
  ∧ (∀ i, String.lax_int s = .ok i ↔ parseI64 s = some i)
  ∧ (parseI64 s = none → String.lax_int s = .error (ValError.new .intParsing (.string s)))
  ∧ (∀ q, String.lax_float s = .ok q ↔ parseF64 s = some q)
  ∧ (parseF64 s = none →
      String.lax_float s = .error (ValError.new .floatParsing (.string s))) := by
  refine ⟨⟨rfl, rfl, rfl, rfl, rfl, rfl, rfl, rfl, rfl, rfl⟩, ⟨rfl, rfl⟩,
    ⟨rfl, rfl, rfl⟩, ?_, ?_, ?_, ?_, ?_, ?_⟩
  · intro b
    by_cases hf : lowerAscii s ∈ falseTokens
    · by_cases ht : lowerAscii s ∈ trueTokens
      · exact (tokens_disjoint s ht hf).elim
      · cases b <;> simp [String.lax_bool, str_as_bool, String.as_error_value, hf, ht]
    · by_cases ht : lowerAscii s ∈ trueTokens <;> cases b <;>
        simp [String.lax_bool, str_as_bool, String.as_error_value, hf, ht]
  · intro ht hf
    simp [String.lax_bool, str_as_bool, String.as_error_value, hf, ht]
  · intro i
    cases h : parseI64 s <;>
      simp [String.lax_int, h]
  · intro h
    simp [String.lax_int, String.as_error_value, h]
  · intro q
    cases h : parseF64 s <;>
      simp [String.lax_float, h]
  · intro h
    simp [String.lax_float, String.as_error_value, h]

/-- Witness for C7: the parsing-rule clauses at the concrete string "wrong". -/
theorem string_input_spec_witness :
    parseI64 "wrong" = none
  ∧ String.lax_int "wrong" = .error (ValError.new .intParsing (.string "wrong")) :=
  ⟨by decide, (string_input_spec "wrong" true).2.2.2.2.2.2.1 (by decide)⟩

lemma sameOutcome_str_as_bool (iv1 iv2 : InputValue) (s : String) :
    sameOutcome (str_as_bool iv1 s) (str_as_bool iv2 s) := by
  by_cases hf : lowerAscii s ∈ falseTokens <;> by_cases ht : lowerAscii s ∈ trueTokens <;>
    simp [str_as_bool, hf, ht, sameOutcome, ValError.new, ValError.kinds]

/-- Claim C9: for every string, the bare-string representation and the JSON
document-tree representation agree on lax scalar coercion: lax_bool, lax_int
and lax_float return the same success value or fail with the same error
kind. -/
theorem string_json_lax_agree (s : String) :
    sameOutcome (String.lax_bool s) (JsonInput.lax_bool (.string s))
  ∧ sameOutcome (String.lax_int s) (JsonInput.lax_int (.string s))
  ∧ sameOutcome (String.lax_float s) (JsonInput.lax_float (.string s)) := by
  refine ⟨?_, ?_, ?_⟩
  · exact sameOutcome_str_as_bool (.string s) (.jsonInput (.string s)) s
  · cases h : parseI64 s <;>
      simp [String.lax_int, JsonInput.lax_int, str_as_int, h, sameOutcome,
        ValError.new, ValError.kinds]
  · cases h : parseF64 s <;>
      simp [String.lax_float, JsonInput.lax_float, h, sameOutcome,
        ValError.new, ValError.kinds]

/-- Claim C8: the strict temporal operations on the JSON representation
(strict_time, strict_datetime, strict_timedelta) succeed only on strings —
parsed with the canonical text parsers — and fail with the corresponding
type kind on every non-string shape; the lax variants additionally accept
integers and floats interpreted as epoch-like seconds, and an epoch-numeric
value out of the documented range fails with the dedicated range kind, which
is distinct from the generic parsing kind. -/
theorem json_temporal_spec :
    (∀ v : JsonInput, (∀ s, v ≠ .string s) →
        JsonInput.strict_time v = .error (ValError.new .timeType v.as_error_value)
      ∧ JsonInput.strict_datetime v = .error (ValError.new .dateTimeType v.as_error_value)
      ∧ JsonInput.strict_timedelta v = .error (ValError.new .timeDeltaType v.as_error_value))
  ∧ (∀ s : String,
        JsonInput.strict_time (.string s) = bytes_as_time (.jsonInput (.string s)) s
      ∧ JsonInput.strict_datetime (.string s) = bytes_as_datetime (.jsonInput (.string s)) s
      ∧ JsonInput.strict_timedelta (.string s) = bytes_as_timedelta (.jsonInput (.string s)) s)
  ∧ (∀ i : Int,
        JsonInput.lax_time (.int i) = int_as_time (.jsonInput (.int i)) i 0
      ∧ JsonInput.lax_datetime (.int i) = int_as_datetime (.jsonInput (.int i)) i 0
      ∧ JsonInput.lax_timedelta (.int i) = .ok (int_as_duration i))
  ∧ (∀ f : ℚ,
        JsonInput.lax_time (.float f) = float_as_time (.jsonInput (.float f)) f
      ∧ JsonInput.lax_datetime (.float f) = float_as_datetime (.jsonInput (.float f)) f
      ∧ JsonInput.lax_timedelta (.float f) = .ok (float_as_duration f))
  ∧ (∀ i : Int, ¬(0 ≤ i ∧ i < 86400) →
      JsonInput.lax_time (.int i) = .error (ValError.new .timeRange (.jsonInput (.int i))))
  ∧ (∀ i : Int, ¬(datetimeSecondsMin ≤ i ∧ i ≤ datetimeSecondsMax) →
      JsonInput.lax_datetime (.int i)
        = .error (ValError.new .dateTimeRange (.jsonInput (.int i))))
  ∧ (ErrorKind.timeRange ≠ ErrorKind.timeParsing
      ∧ ErrorKind.dateTimeRange ≠ ErrorKind.dateTimeParsing) := by
  refine ⟨?_, fun s => ⟨rfl, rfl, rfl⟩, fun i => ⟨rfl, rfl, rfl⟩,
    fun f => ⟨rfl, rfl, rfl⟩, ?_, ?_, by decide⟩
  · intro v h
    cases v <;> try exact ⟨rfl, rfl, rfl⟩
    exact absurd rfl (h _)
  · intro i h
    simp [JsonInput.lax_time, int_as_time, h, JsonInput.as_error_value]
  · intro i h
    simp [JsonInput.lax_datetime, int_as_datetime, h, JsonInput.as_error_value]

/-- Witness for C8: the out-of-range epoch second 86400 fails with the
dedicated time range kind. -/
theorem json_temporal_spec_witness :
    (¬((0 : Int) ≤ 86400 ∧ (86400 : Int) < 86400))
  ∧ JsonInput.lax_time (.int 86400)
      = .error (ValError.new .timeRange (.jsonInput (.int 86400))) :=
  ⟨by decide, json_temporal_spec.2.2.2.2.1 86400 (by decide)⟩

end PydanticCore
